import Mathlib

/-!
Verification of the node execution and schema-propagation engine of dbt-dry-run,
embedded from `src/dbt_dry_run/node_runner/model_runner.py`.

The data model (`Node`, `Table`, `DryRunResult`, `DryRunStatus`, `OnSchemaChange`,
the exception types, `ResultStore`, `SqlRunner`) is declared in repository modules
outside the provided source hierarchy; those parts are modelled from the spec, as
their doc comments note.  Everything in `model_runner.py` itself is translated
directly from the source.
-/

/-- Modelled from the spec: `DryRunStatus` (in `dbt_dry_run/models.py`, not among the
provided sources) is an enum with the two values `SUCCESS` and `FAILURE`. -/
inductive DryRunStatus where
  | success
  | failure
deriving DecidableEq, Repr

/-- Modelled from the spec: a schema field, "Field entries (name, type, nested-field
metadata)".  Only the name is inspected by the core; the `fieldType` component stands
for the rest of the field's payload so that two fields with the same name can differ. -/
structure TableField where
  name : String
  fieldType : String
deriving DecidableEq, Repr

/-- Modelled from the spec: a `Table` is "an ordered sequence of Field entries". -/
structure Table where
  fields : List TableField
deriving DecidableEq, Repr

/-- Modelled from the spec: `OnSchemaChange` (in `dbt_dry_run/manifest.py`, not among
the provided sources) is an enum of the four schema-change policies. -/
inductive OnSchemaChange where
  | ignore
  | appendNewColumns
  | syncAllColumns
  | fail
deriving DecidableEq, Repr

/-- Modelled from the spec: node config, holding the materialization kind and the
optional `on_schema_change` policy. -/
structure NodeConfig where
  materialized : String
  on_schema_change : Option OnSchemaChange
deriving DecidableEq, Repr

/-- Modelled from the spec: the dependency information of a node; `deep_nodes` is the
"ordered set of transitive upstream node identifiers", optional because it "must be
populated before this node runs, else the engine fails fatally". -/
structure NodeDependsOn where
  deep_nodes : Option (List String)
deriving DecidableEq, Repr

/-- Modelled from the spec: a `Node` with exactly the attributes `model_runner.py`
reads: unique identifier, target database/schema/alias triple, compiled SQL text,
config (materialization and schema-change policy) and dependency info. -/
structure Node where
  unique_id : String
  database : String
  db_schema : String
  «alias» : String
  compiled_sql : String
  config : NodeConfig
  depends_on : NodeDependsOn
deriving DecidableEq, Repr

/-- The errors raised or carried by the engine.  `upstreamFailed` corresponds to
`UpstreamFailedException`, whose Python message interpolates exactly the node's
unique id and the list of failed upstream unique ids; the embedding carries that
content structurally.  `schemaChange` corresponds to `SchemaChangeException`, whose
message interpolates the added and removed field-name sets.  `engine` stands for an
opaque error returned by the SQL engine. -/
inductive DryRunException where
  | upstreamFailed (nodeId : String) (failedUpstreamIds : List String)
  | schemaChange (addedFields removedFields : Finset String)
  | engine (message : String)
deriving DecidableEq

/-- Modelled from the spec: `DryRunResult` is an "immutable record: the Node it
describes, an optional predicted Table, the DryRunStatus, and an optional captured
exception". -/
structure DryRunResult where
  node : Node
  table : Option Table
  status : DryRunStatus
  exception : Option DryRunException
deriving DecidableEq

/-- Modelled from the spec: `DryRunResult.replace_table` (in `dbt_dry_run/models.py`,
not among the provided sources) is a pure transform "producing a new DryRunResult with
the same node/status/exception but a different Table". -/
def DryRunResult.replace_table (r : DryRunResult) (t : Table) : DryRunResult :=
  { r with table := some t }

/-- Modelled from the spec: the `ResultStore` is a mapping from node identifier to
`DryRunResult`; `none` means the identifier is not among the store's keys. -/
def ResultStore : Type := String → Option DryRunResult

/-- Modelled from the spec: the external `SqlRunner` collaborator, "specified only at
its interface boundary": `query` returns a status/schema/error triple and
`get_node_schema` the currently materialized schema, if any. -/
structure SqlRunner where
  query : String → DryRunStatus × Option Table × Option DryRunException
  get_node_schema : Node → Option Table

/-- An insertion-ordered dictionary from field name to field, the Lean rendering of a
Python `dict` with string keys as used in `append_new_columns_handler`. -/
abbrev FieldDict := List (String × TableField)

/-- Writing a key into an insertion-ordered dictionary: if the key is present its
value is replaced in place, otherwise the pair is appended at the end.  This is the
semantics of `d[k] = v` on a Python dict. -/
def dictWrite (d : FieldDict) (k : String) (v : TableField) : FieldDict :=
  if k ∈ d.map Prod.fst then
    d.map (fun p => if p.1 = k then (k, v) else p)
  else
    d ++ [(k, v)]

/-- The dict comprehension `\x7bfield.name: field for field in fields\x7d`: fields are
written left to right, so a repeated name keeps its first position but its last value. -/
def dictOfFields (fs : List TableField) : FieldDict :=
  fs.foldl (fun d f => dictWrite d f.name f) []

/-- Python `d.update(e)`: every entry of `e` is written into `d` in `e`'s order. -/
def dictUpdate (d e : FieldDict) : FieldDict :=
  e.foldl (fun acc p => dictWrite acc p.1 p.2) d

/-- Embedded from `ignore_handler` (model_runner.py lines 10-11). -/
def ignore_handler (dry_run_result : DryRunResult) (target_table : Table) : DryRunResult :=
  dry_run_result.replace_table target_table

/-- Embedded from `append_new_columns_handler` (model_runner.py lines 14-26): build the
name-keyed dict of the predicted fields, update it with the name-keyed dict of the
target fields, and replace the table by the dict's values in order. -/
def append_new_columns_handler (dry_run_result : DryRunResult) (target_table : Table) :
    DryRunResult :=
  match dry_run_result.table with
  | none => dry_run_result
  | some t =>
      let mapped_predicted_table := dictOfFields t.fields
      let mapped_target_table := dictOfFields target_table.fields
      let merged := dictUpdate mapped_predicted_table mapped_target_table
      dry_run_result.replace_table (Table.mk (merged.map Prod.snd))

/-- Embedded from `sync_all_columns_handler` (model_runner.py lines 29-32). -/
def sync_all_columns_handler (dry_run_result : DryRunResult) (target_table : Table) :
    DryRunResult :=
  dry_run_result

/-- Embedded from `fail_handler` (model_runner.py lines 35-59): compare the predicted
and target field-name sets; on any difference fail with a `SchemaChangeException`
naming the added and removed names, otherwise pass the target table through. -/
def fail_handler (dry_run_result : DryRunResult) (target_table : Table) : DryRunResult :=
  match dry_run_result.table with
  | none => dry_run_result
  | some t =>
      let predicted_table_field_names := (t.fields.map TableField.name).toFinset
      let target_table_field_names := (target_table.fields.map TableField.name).toFinset
      let added_fields := predicted_table_field_names \ target_table_field_names
      let removed_fields := target_table_field_names \ predicted_table_field_names
      if added_fields ≠ ∅ ∨ removed_fields ≠ ∅ then
        { node := dry_run_result.node
          table := none
          status := DryRunStatus.failure
          exception := some (DryRunException.schemaChange added_fields removed_fields) }
      else
        { node := dry_run_result.node
          table := some target_table
          status := dry_run_result.status
          exception := dry_run_result.exception }

/-- Embedded from `ON_SCHEMA_CHANGE_TABLE_HANDLER` (model_runner.py lines 62-69). -/
def ON_SCHEMA_CHANGE_TABLE_HANDLER (c : OnSchemaChange) :
    DryRunResult → Table → DryRunResult :=
  match c with
  | OnSchemaChange.ignore => ignore_handler
  | OnSchemaChange.appendNewColumns => append_new_columns_handler
  | OnSchemaChange.syncAllColumns => sync_all_columns_handler
  | OnSchemaChange.fail => fail_handler

/-- The exceptions `_insert_dependant_sql_literals` can raise: the `KeyError` for a
missing dependency graph (which the spec names `MissingDependencyGraphError`), carrying
its message, and `UpstreamFailedException`, carrying the content of its message. -/
inductive InsertError where
  | keyError (message : String)
  | upstreamFailed (nodeId : String) (failedUpstreamIds : List String)
deriving DecidableEq

/-- Embedded from `ModelRunner._insert_dependant_sql_literals` (model_runner.py lines
99-119).  `subst` stands for `replace_upstream_sql` from `dbt_dry_run/literals.py`
(outside the provided sources), kept abstract.  The list comprehension keeps, in
`deep_nodes` order, the results of the identifiers present in the store; a non-SUCCESS
result among them raises `UpstreamFailedException`; otherwise the compiled SQL is
rewritten once per result that has a table. -/
def insertDependantSqlLiterals (subst : String → Node → Table → String)
    (results : ResultStore) (node : Node) : Except InsertError String :=
  match node.depends_on.deep_nodes with
  | none => Except.error (InsertError.keyError
      ("deep_nodes have not been created for " ++ node.unique_id))
  | some deep =>
      let rs := deep.filterMap results
      let failed_upstreams := rs.filter (fun r => r.status ≠ DryRunStatus.success)
      if failed_upstreams.isEmpty then
        let completed_upstreams := rs.filter (fun r => r.table.isSome)
        Except.ok (completed_upstreams.foldl
          (fun sql r =>
            match r.table with
            | some t => subst sql r.node t
            | none => sql)
          node.compiled_sql)
      else
        Except.error (InsertError.upstreamFailed node.unique_id
          (failed_upstreams.map (fun r => r.node.unique_id)))

/-- The `CREATE OR REPLACE VIEW` wrapping applied at model_runner.py line 82 when the
node is materialized as a view. -/
def viewWrap (node : Node) (sql : String) : String :=
  "CREATE OR REPLACE VIEW `" ++ node.database ++ "`.`" ++ node.db_schema ++ "`.`"
    ++ node.«alias» ++ "` AS (\n" ++ sql ++ "\n)"

/-- The base `DryRunResult` built from the engine's status/table/error triple at
model_runner.py lines 84-85. -/
def baseResult (sql_runner : SqlRunner) (node : Node) (run_sql : String) : DryRunResult :=
  { node := node
    table := (sql_runner.query run_sql).2.1
    status := (sql_runner.query run_sql).1
    exception := (sql_runner.query run_sql).2.2 }

/-- Embedded from `ModelRunner.run` (model_runner.py lines 75-97).  The second
component of the returned pair is the list of SQL texts passed to `SqlRunner.query`,
in order, so that "no SQL executed" is expressible; `Except.error` is the `KeyError`
propagating out of `run` uncaught (the spec's `MissingDependencyGraphError`), while
`UpstreamFailedException` is caught and converted into a FAILURE result. -/
def ModelRunner.run (subst : String → Node → Table → String) (sql_runner : SqlRunner)
    (results : ResultStore) (node : Node) :
    Except InsertError DryRunResult × List String :=
  match insertDependantSqlLiterals subst results node with
  | Except.error (InsertError.keyError m) => (Except.error (InsertError.keyError m), [])
  | Except.error (InsertError.upstreamFailed nid fids) =>
      (Except.ok
        { node := node
          table := none
          status := DryRunStatus.failure
          exception := some (DryRunException.upstreamFailed nid fids) }, [])
  | Except.ok sql =>
      let run_sql := if node.config.materialized = "view" then viewWrap node sql else sql
      let result := baseResult sql_runner node run_sql
      let final :=
        if result.status = DryRunStatus.success ∧ node.config.materialized = "incremental"
        then
          match sql_runner.get_node_schema node with
          | some target_table =>
              ON_SCHEMA_CHANGE_TABLE_HANDLER
                (node.config.on_schema_change.getD OnSchemaChange.ignore)
                result target_table
          | none => result
        else result
      (Except.ok final, [run_sql])

/-- The field sequence claimed for the AppendNewColumns policy, written from the
spec's words for comparison with `append_new_columns_handler`: "predicted fields first
(in predicted order)" with "any name collision's value taken from target", "then any
target-only fields appended". -/
def specMergedFields (predicted target : List TableField) : List TableField :=
  predicted.map (fun f =>
    match target.find? (fun g => g.name == f.name) with
    | some g => g
    | none => f)
  ++ target.filter (fun g => g.name ∉ predicted.map TableField.name)

deriving instance DecidableEq for Except

/-! Concrete fixtures used by witness and counterexample theorems. -/

/-- A fixture field named `a`. -/
def exFieldA : TableField := { name := "a", fieldType := "INT64" }

/-- A second fixture field named `a`, distinguishable from `exFieldA`. -/
def exFieldA2 : TableField := { name := "a", fieldType := "FLOAT64" }

/-- A fixture field named `b`. -/
def exFieldB : TableField := { name := "b", fieldType := "INT64" }

/-- A second fixture field named `b`, distinguishable from `exFieldB`. -/
def exFieldB2 : TableField := { name := "b", fieldType := "STRING" }

/-- A fixture field named `c`. -/
def exFieldC : TableField := { name := "c", fieldType := "DATE" }

/-- A fixture upstream node. -/
def exUpstreamNode : Node :=
  { unique_id := "model.proj.up", database := "db", db_schema := "sch", «alias» := "up"
    compiled_sql := "SELECT 1", config := { materialized := "table", on_schema_change := none }
    depends_on := { deep_nodes := some [] } }

/-- A fixture view-materialized node depending on `exUpstreamNode`. -/
def exNodeView : Node :=
  { unique_id := "model.proj.m", database := "db", db_schema := "sch", «alias» := "m"
    compiled_sql := "SELECT * FROM up", config := { materialized := "view", on_schema_change := none }
    depends_on := { deep_nodes := some ["model.proj.up"] } }

/-- A fixture incremental node with no upstreams and no on_schema_change policy. -/
def exNodeIncremental : Node :=
  { unique_id := "model.proj.inc", database := "db", db_schema := "sch", «alias» := "inc"
    compiled_sql := "SELECT 2", config := { materialized := "incremental", on_schema_change := none }
    depends_on := { deep_nodes := some [] } }

/-- A fixture node whose `deep_nodes` is unset. -/
def exNodeNoDeps : Node :=
  { unique_id := "model.proj.z", database := "db", db_schema := "sch", «alias» := "z"
    compiled_sql := "SELECT 3", config := { materialized := "table", on_schema_change := none }
    depends_on := { deep_nodes := none } }

/-- A fixture failed result for the upstream node. -/
def exFailedResult : DryRunResult :=
  { node := exUpstreamNode, table := none, status := DryRunStatus.failure
    exception := some (DryRunException.engine "boom") }

/-- A fixture successful result for the upstream node, with a predicted table. -/
def exOkUpstreamResult : DryRunResult :=
  { node := exUpstreamNode, table := some (Table.mk [exFieldA]), status := DryRunStatus.success
    exception := none }

/-- A fixture successful result with predicted fields named `a` and `b`. -/
def exOkResultAB : DryRunResult :=
  { node := exNodeIncremental, table := some (Table.mk [exFieldA, exFieldB])
    status := DryRunStatus.success, exception := none }

/-- A fixture result whose predicted table repeats the field name `a`. -/
def exDupResult : DryRunResult :=
  { node := exNodeIncremental, table := some (Table.mk [exFieldA, exFieldA2])
    status := DryRunStatus.success, exception := none }

/-- A fixture store in which the upstream node failed. -/
def exStoreFailed : ResultStore :=
  fun id => if id = "model.proj.up" then some exFailedResult else none

/-- A fixture store in which the upstream node succeeded. -/
def exStoreOk : ResultStore :=
  fun id => if id = "model.proj.up" then some exOkUpstreamResult else none

/-- A fixture store with no results at all. -/
def exEmptyStore : ResultStore := fun _ => none

/-- A fixture substitution function that records the upstream's identifier. -/
def exSubst : String → Node → Table → String :=
  fun sql n _ => sql ++ " [" ++ n.unique_id ++ "]"

/-- A fixture SQL engine that always succeeds and reports a live schema of one field. -/
def exSqlRunner : SqlRunner :=
  { query := fun _ => (DryRunStatus.success, some (Table.mk [exFieldA, exFieldB]), none)
    get_node_schema := fun _ => some (Table.mk [exFieldA]) }

/-! Theorems about the embedded engine. -/

/-- Helper: on a node with a populated dependency graph and at least one failed
resolved upstream, the substitution step raises `UpstreamFailedException`. -/
theorem insert_literals_failed_case (subst : String → Node → Table → String)
    (results : ResultStore) (node : Node) (deep : List String)
    (hdeep : node.depends_on.deep_nodes = some deep)
    (hfail : (deep.filterMap results).filter
        (fun r => r.status ≠ DryRunStatus.success) ≠ []) :
    insertDependantSqlLiterals subst results node =
      Except.error (InsertError.upstreamFailed node.unique_id
        (((deep.filterMap results).filter
          (fun r => r.status ≠ DryRunStatus.success)).map
            (fun r => r.node.unique_id))) := by
  have hne : ¬ ((deep.filterMap results).filter
      (fun r => r.status ≠ DryRunStatus.success)).isEmpty = true :=
    fun h => hfail (List.isEmpty_iff.mp h)
  simp only [insertDependantSqlLiterals, hdeep]
  rw [if_neg hne]

/-- Helper: on a node with a populated dependency graph and no failed resolved
upstream, the substitution step returns the fold of the substitution function. -/
theorem insert_literals_ok_case (subst : String → Node → Table → String)
    (results : ResultStore) (node : Node) (deep : List String)
    (hdeep : node.depends_on.deep_nodes = some deep)
    (hok : (deep.filterMap results).filter
        (fun r => r.status ≠ DryRunStatus.success) = []) :
    insertDependantSqlLiterals subst results node =
      Except.ok (((deep.filterMap results).filter (fun r => r.table.isSome)).foldl
        (fun sql r =>
          match r.table with
          | some t => subst sql r.node t
          | none => sql) node.compiled_sql) := by
  have hemp : ((deep.filterMap results).filter
      (fun r => r.status ≠ DryRunStatus.success)).isEmpty = true :=
    List.isEmpty_iff.mpr hok
  simp only [insertDependantSqlLiterals, hdeep]
  rw [if_pos hemp]

/-- C9: the SyncAllColumns policy handler is the identity: it returns its input
`DryRunResult` unchanged, for every result and every target table. -/
theorem sync_all_columns_handler_identity (dry_run_result : DryRunResult)
    (target_table : Table) :
    sync_all_columns_handler dry_run_result target_table = dry_run_result := rfl

/-- C7: the Ignore policy handler returns a result whose table is exactly the target
table and whose node, status and error are unchanged, for every input result,
including one whose predicted table is absent. -/
theorem ignore_handler_sets_target_table (dry_run_result : DryRunResult)
    (target_table : Table) :
    ignore_handler dry_run_result target_table =
      { node := dry_run_result.node
        table := some target_table
        status := dry_run_result.status
        exception := dry_run_result.exception } := rfl

/-- C5: when `deep_nodes` is unset on the node, `ModelRunner.run` signals the
missing-dependency-graph error (the source's `KeyError`, named
`MissingDependencyGraphError` by the spec) and passes no SQL to `SqlRunner.query`. -/
theorem run_missing_deep_nodes_fatal (subst : String → Node → Table → String)
    (sql_runner : SqlRunner) (results : ResultStore) (node : Node)
    (h : node.depends_on.deep_nodes = none) :
    ModelRunner.run subst sql_runner results node =
      (Except.error (InsertError.keyError
        ("deep_nodes have not been created for " ++ node.unique_id)), []) := by
  simp [ModelRunner.run, insertDependantSqlLiterals, h]

/-- Witness for C5 at a concrete node whose `deep_nodes` is unset. -/
theorem run_missing_deep_nodes_fatal_witness :
    ModelRunner.run exSubst exSqlRunner exEmptyStore exNodeNoDeps =
      (Except.error (InsertError.keyError
        ("deep_nodes have not been created for " ++ exNodeNoDeps.unique_id)), []) :=
  run_missing_deep_nodes_fatal exSubst exSqlRunner exEmptyStore exNodeNoDeps rfl

/-- C1: when at least one resolved upstream result (an identifier of `deep_nodes`
present in the store) has status other than SUCCESS, `run` returns a FAILURE result
with no table whose error carries the node's unique identifier and every failed
upstream's identifier, and no SQL is passed to `SqlRunner.query`. -/
theorem run_upstream_failure_short_circuits (subst : String → Node → Table → String)
    (sql_runner : SqlRunner) (results : ResultStore) (node : Node) (deep : List String)
    (hdeep : node.depends_on.deep_nodes = some deep)
    (hfail : (deep.filterMap results).filter
        (fun r => r.status ≠ DryRunStatus.success) ≠ []) :
    ModelRunner.run subst sql_runner results node =
      (Except.ok
        { node := node
          table := none
          status := DryRunStatus.failure
          exception := some (DryRunException.upstreamFailed node.unique_id
            (((deep.filterMap results).filter
              (fun r => r.status ≠ DryRunStatus.success)).map
                (fun r => r.node.unique_id))) }, []) := by
  simp only [ModelRunner.run,
    insert_literals_failed_case subst results node deep hdeep hfail]

/-- Witness for C1 at a concrete node with one failed resolved upstream. -/
theorem run_upstream_failure_short_circuits_witness :
    ModelRunner.run exSubst exSqlRunner exStoreFailed exNodeView =
      (Except.ok
        { node := exNodeView
          table := none
          status := DryRunStatus.failure
          exception := some (DryRunException.upstreamFailed "model.proj.m"
            ["model.proj.up"]) }, []) :=
  (run_upstream_failure_short_circuits exSubst exSqlRunner exStoreFailed exNodeView
    ["model.proj.up"] rfl (by decide)).trans (by decide)

/-- C6: with `deep_nodes` set and no failed resolved upstream, the substituted SQL is
the left fold of the substitution function over exactly the resolved results that have
a present table, in `deep_nodes` order, starting from the node's compiled SQL;
identifiers absent from the store and results without a table are skipped. -/
theorem insert_literals_is_fold (subst : String → Node → Table → String)
    (results : ResultStore) (node : Node) (deep : List String)
    (hdeep : node.depends_on.deep_nodes = some deep)
    (hok : (deep.filterMap results).filter
        (fun r => r.status ≠ DryRunStatus.success) = []) :
    insertDependantSqlLiterals subst results node =
      Except.ok (((deep.filterMap results).filter (fun r => r.table.isSome)).foldl
        (fun sql r =>
          match r.table with
          | some t => subst sql r.node t
          | none => sql) node.compiled_sql) :=
  insert_literals_ok_case subst results node deep hdeep hok

/-- Witness for C6 at a concrete node with one succeeded upstream carrying a table. -/
theorem insert_literals_is_fold_witness :
    insertDependantSqlLiterals exSubst exStoreOk exNodeView =
      Except.ok "SELECT * FROM up [model.proj.up]" :=
  (insert_literals_is_fold exSubst exStoreOk exNodeView ["model.proj.up"] rfl
    (by decide)).trans (by decide)

/-- C8: for a node with no failed upstreams, the SQL passed to `SqlRunner.query` is
the substituted SQL wrapped in a CREATE OR REPLACE VIEW statement naming the node's
database.schema.alias target exactly when the node is materialized as a view, and the
bare substituted SQL for every other materialization. -/
theorem run_sql_view_wrapping (subst : String → Node → Table → String)
    (sql_runner : SqlRunner) (results : ResultStore) (node : Node) (sql : String)
    (hok : insertDependantSqlLiterals subst results node = Except.ok sql) :
    (node.config.materialized = "view" →
      (ModelRunner.run subst sql_runner results node).2 = [viewWrap node sql]) ∧
    (node.config.materialized ≠ "view" →
      (ModelRunner.run subst sql_runner results node).2 = [sql]) := by
  constructor <;> intro h <;> simp [ModelRunner.run, hok, h]

/-- Witness for C8 at a concrete view-materialized node. -/
theorem run_sql_view_wrapping_witness :
    (ModelRunner.run exSubst exSqlRunner exStoreOk exNodeView).2 =
      ["CREATE OR REPLACE VIEW `db`.`sch`.`m` AS (\nSELECT * FROM up [model.proj.up]\n)"] :=
  ((run_sql_view_wrapping exSubst exSqlRunner exStoreOk exNodeView
    "SELECT * FROM up [model.proj.up]" (by decide)).1 rfl).trans (by decide)

/-- C2: the Fail policy handler fails with a `SchemaChangeException` carrying exactly
the added (predicted minus target) and removed (target minus predicted) field-name
sets whenever either is non-empty; when the two name sets are equal it passes the
target table through with status and error unchanged; and when the predicted table is
absent it returns the input unchanged. -/
theorem fail_handler_spec (dry_run_result : DryRunResult) (target_table : Table) :
    (dry_run_result.table = none →
      fail_handler dry_run_result target_table = dry_run_result) ∧
    (∀ t, dry_run_result.table = some t →
      (((t.fields.map TableField.name).toFinset \
          (target_table.fields.map TableField.name).toFinset ≠ ∅ ∨
        (target_table.fields.map TableField.name).toFinset \
          (t.fields.map TableField.name).toFinset ≠ ∅) →
        fail_handler dry_run_result target_table =
          { node := dry_run_result.node
            table := none
            status := DryRunStatus.failure
            exception := some (DryRunException.schemaChange
              ((t.fields.map TableField.name).toFinset \
                (target_table.fields.map TableField.name).toFinset)
              ((target_table.fields.map TableField.name).toFinset \
                (t.fields.map TableField.name).toFinset)) }) ∧
      ((t.fields.map TableField.name).toFinset =
          (target_table.fields.map TableField.name).toFinset →
        fail_handler dry_run_result target_table =
          { node := dry_run_result.node
            table := some target_table
            status := dry_run_result.status
            exception := dry_run_result.exception })) := by
  refine ⟨fun h => by simp [fail_handler, h], fun t ht => ⟨fun hch => ?_, fun heq => ?_⟩⟩
  · simp only [fail_handler, ht]
    rw [if_pos hch]
  · have h1 : (t.fields.map TableField.name).toFinset \
        (target_table.fields.map TableField.name).toFinset = ∅ := by
      rw [heq, Finset.sdiff_self]
    have h2 : (target_table.fields.map TableField.name).toFinset \
        (t.fields.map TableField.name).toFinset = ∅ := by
      rw [heq, Finset.sdiff_self]
    simp only [fail_handler, ht]
    rw [if_neg (by simp [h1, h2])]

/-- Witness for C2 at predicted fields named a,b against target fields named a,c. -/
theorem fail_handler_spec_witness :
    fail_handler exOkResultAB (Table.mk [exFieldA, exFieldC]) =
      { node := exOkResultAB.node
        table := none
        status := DryRunStatus.failure
        exception := some (DryRunException.schemaChange {"b"} {"c"}) } :=
  (((fail_handler_spec exOkResultAB (Table.mk [exFieldA, exFieldC])).2
    (Table.mk [exFieldA, exFieldB]) rfl).1 (by decide)).trans (by decide)

/-- C4: the reconciliation handler is applied to the base query result exactly when
that result's status is SUCCESS, the node is materialized as "incremental", and
`get_node_schema` returns a table; in every other case the base result is returned
unchanged; an unset `on_schema_change` defaults to the Ignore policy. -/
theorem run_reconciliation_condition (subst : String → Node → Table → String)
    (sql_runner : SqlRunner) (results : ResultStore) (node : Node) (sql : String)
    (hok : insertDependantSqlLiterals subst results node = Except.ok sql) :
    (∀ target_table,
      (baseResult sql_runner node
          (if node.config.materialized = "view" then viewWrap node sql else sql)).status =
            DryRunStatus.success →
      node.config.materialized = "incremental" →
      sql_runner.get_node_schema node = some target_table →
      (ModelRunner.run subst sql_runner results node).1 =
        Except.ok (ON_SCHEMA_CHANGE_TABLE_HANDLER
          (node.config.on_schema_change.getD OnSchemaChange.ignore)
          (baseResult sql_runner node
            (if node.config.materialized = "view" then viewWrap node sql else sql))
          target_table)) ∧
    (¬ ((baseResult sql_runner node
          (if node.config.materialized = "view" then viewWrap node sql else sql)).status =
            DryRunStatus.success ∧
        node.config.materialized = "incremental" ∧
        (sql_runner.get_node_schema node).isSome) →
      (ModelRunner.run subst sql_runner results node).1 =
        Except.ok (baseResult sql_runner node
          (if node.config.materialized = "view" then viewWrap node sql else sql))) := by
  constructor
  · intro target_table h1 h2 h3
    simp only [ModelRunner.run, hok]
    rw [if_pos ⟨h1, h2⟩, h3]
  · intro hneg
    simp only [ModelRunner.run, hok]
    by_cases h1 : (baseResult sql_runner node
        (if node.config.materialized = "view" then viewWrap node sql else sql)).status =
          DryRunStatus.success ∧ node.config.materialized = "incremental"
    · rw [if_pos h1]
      cases hsch : sql_runner.get_node_schema node with
      | none => rfl
      | some t => exact absurd ⟨h1.1, h1.2, by rw [hsch]; rfl⟩ hneg
    · rw [if_neg h1]

/-- Witness for C4 at an incremental node with a successful query and a live schema,
whose unset policy defaults to Ignore. -/
theorem run_reconciliation_condition_witness :
    (ModelRunner.run exSubst exSqlRunner exEmptyStore exNodeIncremental).1 =
      Except.ok (ON_SCHEMA_CHANGE_TABLE_HANDLER
        (exNodeIncremental.config.on_schema_change.getD OnSchemaChange.ignore)
        (baseResult exSqlRunner exNodeIncremental
          (if exNodeIncremental.config.materialized = "view"
           then viewWrap exNodeIncremental "SELECT 2" else "SELECT 2"))
        (Table.mk [exFieldA])) :=
  (run_reconciliation_condition exSubst exSqlRunner exEmptyStore exNodeIncremental
    "SELECT 2" (by decide)).1 (Table.mk [exFieldA]) rfl rfl rfl

/-- C10: on every path, the result `run` returns describes the input node, and each
of the four policy handlers returns a result with the same node as its input. -/
theorem run_result_node_is_input_node :
    (∀ r t, (ignore_handler r t).node = r.node) ∧
    (∀ r t, (append_new_columns_handler r t).node = r.node) ∧
    (∀ r t, (sync_all_columns_handler r t).node = r.node) ∧
    (∀ r t, (fail_handler r t).node = r.node) ∧
    (∀ (subst : String → Node → Table → String) (sql_runner : SqlRunner)
      (results : ResultStore) (node : Node) (r : DryRunResult) (log : List String),
      ModelRunner.run subst sql_runner results node = (Except.ok r, log) →
      r.node = node) := by
  have hig : ∀ r t, (ignore_handler r t).node = r.node := fun r t => rfl
  have hap : ∀ r t, (append_new_columns_handler r t).node = r.node := by
    intro r t
    cases h : r.table <;> simp [append_new_columns_handler, h, DryRunResult.replace_table]
  have hsy : ∀ r t, (sync_all_columns_handler r t).node = r.node := fun r t => rfl
  have hfa : ∀ r t, (fail_handler r t).node = r.node := by
    intro r t
    cases h : r.table with
    | none => simp [fail_handler, h]
    | some tt =>
        simp only [fail_handler, h]
        split <;> rfl
  have hhandler : ∀ c r t, (ON_SCHEMA_CHANGE_TABLE_HANDLER c r t).node = r.node := by
    intro c r t
    cases c
    · exact hig r t
    · exact hap r t
    · exact hsy r t
    · exact hfa r t
  refine ⟨hig, hap, hsy, hfa, ?_⟩
  intro subst sql_runner results node r log h
  cases hins : insertDependantSqlLiterals subst results node with
  | error e =>
      cases e with
      | keyError m =>
          rw [ModelRunner.run] at h
          rw [hins] at h
          simp at h
      | upstreamFailed nid fids =>
          rw [ModelRunner.run] at h
          rw [hins] at h
          simp only [Prod.mk.injEq, Except.ok.injEq] at h
          rw [← h.1]
  | ok sql =>
      rw [ModelRunner.run] at h
      rw [hins] at h
      simp only [Prod.mk.injEq, Except.ok.injEq] at h
      rw [← h.1]
      repeat' split
      all_goals try rw [hhandler]
      all_goals rfl

/-- Witness for C10 at a concrete run of the fixture view node. -/
theorem run_result_node_is_input_node_witness :
    ({ node := exNodeView, table := some (Table.mk [exFieldA, exFieldB])
       status := DryRunStatus.success, exception := none } : DryRunResult).node =
      exNodeView :=
  run_result_node_is_input_node.2.2.2.2 exSubst exSqlRunner exStoreOk exNodeView
    { node := exNodeView, table := some (Table.mk [exFieldA, exFieldB])
      status := DryRunStatus.success, exception := none }
    ["CREATE OR REPLACE VIEW `db`.`sch`.`m` AS (\nSELECT * FROM up [model.proj.up]\n)"]
    (by decide)

/-- Helper: writing an absent key appends the pair at the end. -/
theorem dictWrite_of_not_mem (d : FieldDict) (k : String) (v : TableField)
    (h : k ∉ d.map Prod.fst) : dictWrite d k v = d ++ [(k, v)] := by
  simp [dictWrite, h]

/-- Helper: writing a present key leaves the key sequence unchanged. -/
theorem dictWrite_keys_of_mem (d : FieldDict) (k : String) (v : TableField)
    (h : k ∈ d.map Prod.fst) :
    (dictWrite d k v).map Prod.fst = d.map Prod.fst := by
  simp only [dictWrite, if_pos h, List.map_map]
  refine List.map_congr_left fun p hp => ?_
  by_cases hpk : p.1 = k
  · simp [Function.comp, hpk]
  · simp [Function.comp, hpk]

/-- Helper: folding dict writes over duplicate-free fields appends their pairs. -/
theorem dictOfFields_foldl (fs : List TableField) :
    ∀ acc : FieldDict, (∀ f ∈ fs, f.name ∉ acc.map Prod.fst) →
    (fs.map TableField.name).Nodup →
    fs.foldl (fun d f => dictWrite d f.name f) acc =
      acc ++ fs.map (fun f => (f.name, f)) := by
  induction fs with
  | nil => intro acc _ _; simp
  | cons f fs ih =>
      intro acc hdisj hnodup
      have hmem : f.name ∉ acc.map Prod.fst := hdisj f (List.mem_cons_self f fs)
      rw [List.map_cons, List.nodup_cons] at hnodup
      have hcons := hnodup
      have hdisj' : ∀ g ∈ fs, g.name ∉ (acc ++ [(f.name, f)]).map Prod.fst := by
        intro g hg
        have h1 : g.name ∉ acc.map Prod.fst := hdisj g (List.mem_cons_of_mem f hg)
        have h2 : g.name ≠ f.name := fun he =>
          hcons.1 (he ▸ List.mem_map_of_mem TableField.name hg)
        simp [List.map_append, h1, h2]
      rw [List.foldl_cons, dictWrite_of_not_mem acc f.name f hmem,
        ih (acc ++ [(f.name, f)]) hdisj' hcons.2]
      simp

/-- Helper: on duplicate-free field names the built dict is the list of name/field
pairs in order. -/
theorem dictOfFields_eq_pairs (fs : List TableField)
    (hnodup : (fs.map TableField.name).Nodup) :
    dictOfFields fs = fs.map (fun f => (f.name, f)) := by
  simpa using dictOfFields_foldl fs [] (by simp) hnodup

/-- Helper: updating a dict `d` with a dict `e` of duplicate-free keys overwrites the
entries of `d` whose key occurs in `e` in place and appends the remaining entries of
`e` in order. -/
theorem dictUpdate_eq_of_nodup_keys (e : FieldDict) :
    ∀ d : FieldDict, (e.map Prod.fst).Nodup →
    dictUpdate d e =
      d.map (fun p =>
        match e.find? (fun q => q.1 == p.1) with
        | some q => q
        | none => p)
      ++ e.filter (fun q => q.1 ∉ d.map Prod.fst) := by
  induction e with
  | nil => intro d _; simp [dictUpdate]
  | cons kv e ih =>
      intro d he
      obtain ⟨k, v⟩ := kv
      rw [List.map_cons, List.nodup_cons] at he
      have hcons := he
      have hk_not_e : k ∉ e.map Prod.fst := hcons.1
      have hstep : dictUpdate d ((k, v) :: e) = dictUpdate (dictWrite d k v) e := rfl
      rw [hstep, ih (dictWrite d k v) hcons.2]
      have hfind_none : e.find? (fun q => q.1 == k) = none :=
        List.find?_eq_none.mpr (fun q hq hqtrue =>
          hk_not_e ((beq_iff_eq.mp hqtrue) ▸ List.mem_map_of_mem Prod.fst hq))
      by_cases hk : k ∈ d.map Prod.fst
      · have hkeys := dictWrite_keys_of_mem d k v hk
        simp only [hkeys]
        rw [show dictWrite d k v = d.map (fun p => if p.1 = k then (k, v) else p) from by
          simp [dictWrite, hk]]
        rw [List.map_map]
        congr 1
        · refine List.map_congr_left fun p hp => ?_
          by_cases hpk : p.1 = k
          · have hhead : ((k, v) :: e).find? (fun q => q.1 == p.1) = some (k, v) :=
              List.find?_cons_of_pos _ (by simp [hpk])
            simp [Function.comp, if_pos hpk, hfind_none, hhead]
          · have hhead : ((k, v) :: e).find? (fun q => q.1 == p.1) =
                e.find? (fun q => q.1 == p.1) :=
              List.find?_cons_of_neg _ (by simpa using Ne.symm hpk)
            simp [Function.comp, if_neg hpk, hhead]
        · simp [List.filter_cons, hk]
      · rw [dictWrite_of_not_mem d k v hk]
        have hmap : (d ++ [(k, v)]).map (fun p =>
            match e.find? (fun q => q.1 == p.1) with
            | some q => q
            | none => p) =
            d.map (fun p =>
              match e.find? (fun q => q.1 == p.1) with
              | some q => q
              | none => p) ++ [(k, v)] := by
          rw [List.map_append]
          simp [hfind_none]
        rw [hmap]
        have hfilter : e.filter (fun q => q.1 ∉ (d ++ [(k, v)]).map Prod.fst) =
            e.filter (fun q => q.1 ∉ d.map Prod.fst) := by
          refine List.filter_congr fun q hq => ?_
          have hqk : q.1 ≠ k := fun he' =>
            hk_not_e (he' ▸ List.mem_map_of_mem Prod.fst hq)
          simp [List.map_append, hqk]
        rw [hfilter]
        have hmapd : d.map (fun p =>
            match e.find? (fun q => q.1 == p.1) with
            | some q => q
            | none => p) =
            d.map (fun p =>
              match ((k, v) :: e).find? (fun q => q.1 == p.1) with
              | some q => q
              | none => p) := by
          refine List.map_congr_left fun p hp => ?_
          have hpk : p.1 ≠ k := fun he' => hk ((he' ▸ List.mem_map_of_mem Prod.fst hp))
          have hhead : ((k, v) :: e).find? (fun q => q.1 == p.1) =
              e.find? (fun q => q.1 == p.1) :=
            List.find?_cons_of_neg _ (by simpa using Ne.symm hpk)
          simp [hhead]
        have hfcons : ((k, v) :: e).filter (fun q => q.1 ∉ d.map Prod.fst) =
            (k, v) :: e.filter (fun q => q.1 ∉ d.map Prod.fst) := by
          simp [List.filter_cons, hk]
        rw [hmapd, hfcons]
        simp

/-- C3 (amended): when the predicted table is absent the AppendNewColumns handler
returns its input unchanged; when it is present and the field names within the
predicted table and within the target table are each pairwise distinct, the result's
field sequence is the predicted fields in their original order with target fields of
the same name substituted in place, followed by the target-only fields in target
order, with node, status and error unchanged. -/
theorem append_new_columns_spec (dry_run_result : DryRunResult) (target_table : Table) :
    (dry_run_result.table = none →
      append_new_columns_handler dry_run_result target_table = dry_run_result) ∧
    (∀ t, dry_run_result.table = some t →
      (t.fields.map TableField.name).Nodup →
      (target_table.fields.map TableField.name).Nodup →
      append_new_columns_handler dry_run_result target_table =
        dry_run_result.replace_table
          (Table.mk (specMergedFields t.fields target_table.fields))) := by
  constructor
  · intro h; simp [append_new_columns_handler, h]
  · intro t ht hp htg
    simp only [append_new_columns_handler, ht]
    have hkeys_tgt : ((target_table.fields.map (fun f => (f.name, f))).map Prod.fst).Nodup := by
      simpa [List.map_map, Function.comp] using htg
    rw [dictOfFields_eq_pairs t.fields hp, dictOfFields_eq_pairs target_table.fields htg,
      dictUpdate_eq_of_nodup_keys _ _ hkeys_tgt]
    congr 2
    rw [List.map_append, specMergedFields]
    congr 1
    · rw [List.map_map, List.map_map]
      refine List.map_congr_left fun f hf => ?_
      simp only [Function.comp]
      rw [List.find?_map]
      have hfind' : List.find? ((fun q => q.1 == f.name) ∘ fun g : TableField => (g.name, g))
          target_table.fields = target_table.fields.find? (fun g => g.name == f.name) := rfl
      rw [hfind']
      cases hfind : target_table.fields.find? (fun g => g.name == f.name) with
      | none => rfl
      | some g => rfl
    · have hkeys_pred : (t.fields.map (fun f => (f.name, f))).map Prod.fst =
          t.fields.map TableField.name := by
        simp [List.map_map, Function.comp]
      simp only [hkeys_pred]
      rw [List.filter_map, List.map_map]
      have hid : (Prod.snd ∘ fun f : TableField => (f.name, f)) = id := rfl
      rw [hid, List.map_id]
      rfl

/-- C3 counterexample: at a predicted table whose two fields share the name `a` and a
target table whose two fields share the name `b`, the handler's Python-dict semantics
collapse the duplicates, so the output is not the predicted fields in their original
order with target overrides followed by the target-only fields. -/
theorem append_new_columns_claim_counterexample :
    (append_new_columns_handler exDupResult (Table.mk [exFieldB, exFieldB2])).table ≠
      some (Table.mk (specMergedFields [exFieldA, exFieldA2] [exFieldB, exFieldB2])) := by
  decide

/-- Witness for the amended C3 at duplicate-free predicted fields a,b and target
fields b,c, where b's definition is taken from the target. -/
theorem append_new_columns_spec_witness :
    append_new_columns_handler exOkResultAB (Table.mk [exFieldB2, exFieldC]) =
      exOkResultAB.replace_table
        (Table.mk (specMergedFields [exFieldA, exFieldB] [exFieldB2, exFieldC])) :=
  (append_new_columns_spec exOkResultAB (Table.mk [exFieldB2, exFieldC])).2
    (Table.mk [exFieldA, exFieldB]) rfl (by decide) (by decide)
